import Mathlib

/-!
Shallow embedding of the asynchronous video-transcoding job subsystem of
`src/app.py` (Flask application).  Pure data is modelled directly; the SQLite
`transcoding_jobs` table is a `List JobRecord`, SQL `UPDATE ... WHERE id = ?`
statements are pointwise record updates, and wall-clock timestamps are
abstract `Nat` parameters supplied by the environment.
-/

/-- Status column of `transcoding_jobs` (src/app.py line 81, and the string
literals written by the handlers: queued, processing, completed, failed). -/
inductive JobStatus
  | queued
  | processing
  | completed
  | failed
deriving DecidableEq, Repr

/-- A row of the `transcoding_jobs` table (src/app.py lines 73-92).
`created_at`, `started_at`, `completed_at` are `Option Nat` abstract
timestamps; `processing_time` (REAL in the schema) is an abstract
`Option Nat` duration. -/
structure JobRecord where
  id : String
  user_id : Nat
  video_id : String
  target_format : String
  target_resolution : String
  target_bitrate : String
  status : JobStatus
  progress : Nat
  result_filename : Option String
  created_at : Option Nat
  started_at : Option Nat
  completed_at : Option Nat
  processing_time : Option Nat
  error_message : Option String
deriving DecidableEq, Repr

/-- A row of the `videos` table, restricted to the columns the transcoding
handlers read (src/app.py lines 56-70: id, user_id, filename). -/
structure Video where
  id : String
  user_id : Nat
  filename : String
deriving DecidableEq, Repr

/-- SQL `SELECT ... FROM transcoding_jobs WHERE id = ?` on the primary key:
first row whose id matches. -/
def getJob (jobs : List JobRecord) (jid : String) : Option JobRecord :=
  jobs.find? fun j => j.id = jid

/-- Generic SQL `UPDATE transcoding_jobs SET ... WHERE id = ?`: applies the
field assignment `f` to every row whose id matches (the id is a primary key,
so at most one row in a well-formed table). -/
def updateJob (jobs : List JobRecord) (jid : String) (f : JobRecord → JobRecord) :
    List JobRecord :=
  jobs.map fun j => if j.id = jid then f j else j

/-- src/app.py lines 221-224: `UPDATE transcoding_jobs SET status = ?,
started_at = CURRENT_TIMESTAMP WHERE id = ?` with status `processing`.
The assignment is unconditional: no check of the current status. -/
def sqlUpdateProcessing (jobs : List JobRecord) (jid : String) (t : Nat) :
    List JobRecord :=
  updateJob jobs jid fun j => { j with status := .processing, started_at := some t }

/-- src/app.py lines 299-303: `UPDATE transcoding_jobs SET status = ?,
progress = ?, completed_at = CURRENT_TIMESTAMP, processing_time = ? WHERE
id = ?` with status `completed`, progress 100. -/
def sqlUpdateCompleted (jobs : List JobRecord) (jid : String) (t dur : Nat) :
    List JobRecord :=
  updateJob jobs jid fun j =>
    { j with status := .completed, progress := 100,
             completed_at := some t, processing_time := some dur }

/-- src/app.py lines 307-310 and 319-322: `UPDATE transcoding_jobs SET
status = ?, error_message = ? WHERE id = ?` with status `failed`.  Note that
this statement touches neither `completed_at` nor `processing_time`. -/
def sqlUpdateFailed (jobs : List JobRecord) (jid : String) (msg : String) :
    List JobRecord :=
  updateJob jobs jid fun j => { j with status := .failed, error_message := some msg }

/-- Outcome of the external engine invocation performed by
`transcode_video_cpu_intensive`: the `subprocess.run` call returns an exit
code and captured stderr, or some statement of the body raises an exception
(caught at src/app.py lines 316-325). -/
inductive RunOutcome
  | exits (returncode : Nat) (stderr : String)
  | raises (msg : String)
deriving DecidableEq, Repr

/-- src/app.py lines 214-325, `transcode_video_cpu_intensive`, as a state
transformer on the jobs table.  It first sets the row to `processing`
stamping `started_at := startT`; then, depending on the engine outcome:
exit code 0 updates to `completed` with `completed_at := startT + dur` and
`processing_time := dur`; a non-zero exit code updates to `failed` with
`error_message := stderr`; an exception raised after the processing update
(during command construction or the engine run) is caught by the handler at
lines 316-325, which updates to `failed` with the exception text. -/
def transcode_video_cpu_intensive (jobs : List JobRecord) (jid : String)
    (startT dur : Nat) (outcome : RunOutcome) : List JobRecord :=
  let jobs1 := sqlUpdateProcessing jobs jid startT
  match outcome with
  | .exits code stderr =>
      if code = 0 then sqlUpdateCompleted jobs1 jid (startT + dur) dur
      else sqlUpdateFailed jobs1 jid stderr
  | .raises msg => sqlUpdateFailed jobs1 jid msg

/-- src/app.py line 559. -/
def valid_formats : List String := ["h264", "h265", "vp9"]

/-- src/app.py line 560. -/
def valid_resolutions : List String := ["480p", "720p", "1080p", "4K"]

/-- Ownership/existence check shared by the handlers (for example src/app.py
lines 572-575): admins look a video up by id alone, other users by id and
user_id. -/
def lookupVideo (videos : List Video) (role : String) (uid : Nat) (vid : String) :
    Option Video :=
  videos.find? fun v => decide (v.id = vid) && (decide (role = "admin") || decide (v.user_id = uid))

/-- The row inserted by `INSERT INTO transcoding_jobs ...` at src/app.py
lines 586-591 (and identically at lines 970-975): status defaults to
`queued`, progress to 0, `result_filename` is set immediately to
`"{job_id}_{target_format}_{target_resolution}.mp4"`, and the timestamp
columns other than `created_at` are NULL. -/
def mkJob (jid : String) (uid : Nat) (vid : String)
    (fmt res bitrate : String) (now : Nat) : JobRecord :=
  { id := jid, user_id := uid, video_id := vid,
    target_format := fmt, target_resolution := res, target_bitrate := bitrate,
    status := .queued, progress := 0,
    result_filename := some (jid ++ "_" ++ fmt ++ "_" ++ res ++ ".mp4"),
    created_at := some now, started_at := none, completed_at := none,
    processing_time := none, error_message := none }

/-- JSON body of a single-video transcode request: each target field may be
absent, in which case `.get` supplies a default (src/app.py lines 555-557). -/
structure RequestData where
  target_format : Option String
  target_resolution : Option String
  target_bitrate : Option String
deriving DecidableEq, Repr

/-- Response of the single-video transcode endpoint. -/
inductive SubmitResult
  | validationError (msg : String)
  | notFound (msg : String)
  | accepted (job_id : String)
deriving DecidableEq, Repr

/-- src/app.py lines 551-607, `transcode_video`: applies defaults, validates
format and resolution against the fixed enumerations, checks
ownership/existence of the video, and only then inserts a `queued` job row.
Returns the HTTP outcome together with the jobs table after the request. -/
def transcode_video (videos : List Video) (jobs : List JobRecord)
    (current_user_id : Nat) (current_user_role : String)
    (video_id : String) (data : RequestData) (job_id : String) (now : Nat) :
    SubmitResult × List JobRecord :=
  let target_format := data.target_format.getD "h264"
  let target_resolution := data.target_resolution.getD "720p"
  let target_bitrate := data.target_bitrate.getD "2M"
  if target_format ∈ valid_formats then
    if target_resolution ∈ valid_resolutions then
      match lookupVideo videos current_user_role current_user_id video_id with
      | none => (.notFound "Video not found", jobs)
      | some _ =>
          (.accepted job_id,
           jobs ++ [mkJob job_id current_user_id video_id
                      target_format target_resolution target_bitrate now])
    else (.validationError "Invalid target resolution", jobs)
  else (.validationError "Invalid target format", jobs)

/-- JSON body of a batch transcode request (src/app.py lines 944-947). -/
structure BatchRequestData where
  video_ids : List String
  target_format : Option String
  target_resolution : Option String
  target_bitrate : Option String
deriving DecidableEq, Repr

/-- Response of the batch transcode endpoint. -/
inductive BatchResult
  | noVideos (msg : String)
  | accepted (job_ids : List String)
deriving DecidableEq, Repr

/-- The per-video loop of `batch_transcode` (src/app.py lines 954-987): for
each video id a fresh job id is generated (modelled by `gen` applied to the
iteration index), the ownership/existence check is run, and only when a
video row is found is a job row inserted, the task submitted, and the job id
appended to the returned list; a failing check is silently skipped.  No
format or resolution validation occurs anywhere in this loop.  Returns the
collected job ids and the inserted rows in order. -/
def batch_loop (videos : List Video) (uid : Nat) (role : String)
    (fmt res bitrate : String) (now : Nat) (gen : Nat → String) :
    Nat → List String → List String × List JobRecord
  | _, [] => ([], [])
  | i, vid :: rest =>
    match lookupVideo videos role uid vid with
    | some _ =>
        let out := batch_loop videos uid role fmt res bitrate now gen (i + 1) rest
        (gen i :: out.1, mkJob (gen i) uid vid fmt res bitrate now :: out.2)
    | none => batch_loop videos uid role fmt res bitrate now gen (i + 1) rest

/-- src/app.py lines 939-993, `batch_transcode`: applies the same defaults
as the single path, rejects an empty id list with a 400, and otherwise runs
the per-video loop.  Unlike `transcode_video` it never checks
`valid_formats`/`valid_resolutions`. -/
def batch_transcode (videos : List Video) (jobs : List JobRecord)
    (current_user_id : Nat) (current_user_role : String)
    (data : BatchRequestData) (gen : Nat → String) (now : Nat) :
    BatchResult × List JobRecord :=
  let target_format := data.target_format.getD "h264"
  let target_resolution := data.target_resolution.getD "720p"
  let target_bitrate := data.target_bitrate.getD "2M"
  match data.video_ids with
  | [] => (.noVideos "No video IDs provided", jobs)
  | _ =>
      let out := batch_loop videos current_user_id current_user_role
        target_format target_resolution target_bitrate now gen 0 data.video_ids
      (.accepted out.1, jobs ++ out.2)

/-- Response of the result-download endpoint. -/
inductive DownloadResult
  | file (path : String)
  | notFound (msg : String)
deriving DecidableEq, Repr

/-- src/app.py lines 651-678, `download_transcoded_video`: selects the job
row with the given id whose status is literally completed (admins without,
other users with a `user_id` constraint); 404 when there is no such row or
its `result_filename` is NULL/empty; otherwise serves the file when it
exists on disk (`fileExists`) and 404 otherwise.  The handler only reads,
so the jobs table is returned unchanged. -/
def download_transcoded_video (jobs : List JobRecord) (fileExists : String → Bool)
    (current_user_id : Nat) (current_user_role : String) (job_id : String) :
    DownloadResult × List JobRecord :=
  match jobs.find? fun j =>
    decide (j.id = job_id) && decide (j.status = JobStatus.completed) &&
      (decide (current_user_role = "admin") || decide (j.user_id = current_user_id)) with
  | none => (.notFound "Transcoded video not found", jobs)
  | some j =>
      match j.result_filename with
      | none => (.notFound "Transcoded video not found", jobs)
      | some f =>
          if f = "" then (.notFound "Transcoded video not found", jobs)
          else if fileExists ("transcoded/" ++ f) then
            (.file ("transcoded/" ++ f), jobs)
          else (.notFound "File not found", jobs)

/-- src/app.py lines 236-244: the resolution-keyed scale filter; an
unrecognised resolution contributes no scale filter. -/
def scale_filter (target_resolution : String) : List String :=
  if target_resolution = "4K" then ["scale=3840:2160:flags=lanczos"]
  else if target_resolution = "1080p" then ["scale=1920:1080:flags=lanczos"]
  else if target_resolution = "720p" then ["scale=1280:720:flags=lanczos"]
  else if target_resolution = "480p" then ["scale=854:480:flags=lanczos"]
  else []

/-- src/app.py lines 233-251: the full video-filter list: the scale filter
(when `target_resolution` is non-empty) followed by the three fixed
enhancement filters. -/
def video_filters (target_resolution : Option String) : List String :=
  (match target_resolution with
   | none => []
   | some r => if r = "" then [] else scale_filter r)
  ++ ["unsharp=5:5:1.0:5:5:0.0",
      "eq=contrast=1.1:brightness=0.02:saturation=1.1",
      "hqdn3d=4:3:6:4.5"]

/-- Python `str.lower()` applied to the format string (src/app.py lines
258, 265, 272), modelled as character-wise lowering of the string's
character list. -/
def strLower (s : String) : String :=
  ⟨s.data.map Char.toLower⟩

/-- src/app.py lines 258-278: the format-keyed codec argument block; an
unrecognised format contributes no codec arguments. -/
def codec_args (target_format : String) : List String :=
  if strLower target_format = "h264" then
    ["-c:v", "libx264", "-preset", "veryslow", "-crf", "18",
     "-x264-params", "me=umh:subme=10:ref=16:b-adapt=2:direct=auto:weightp=2"]
  else if strLower target_format = "h265" then
    ["-c:v", "libx265", "-preset", "veryslow", "-crf", "20",
     "-x265-params", "me=3:subme=4:ref=6:b-adapt=2"]
  else if strLower target_format = "vp9" then
    ["-c:v", "libvpx-vp9", "-crf", "20", "-b:v", "0", "-cpu-used", "0"]
  else []

/-- src/app.py lines 230-287: the complete ffmpeg argument list built by
`transcode_video_cpu_intensive`, a pure function of the input path, output
path and target specification. -/
def build_cmd (input_path output_path : String) (target_format : String)
    (target_resolution target_bitrate : Option String) : List String :=
  ["ffmpeg", "-i", input_path, "-y"]
  ++ (if video_filters target_resolution = [] then []
      else ["-vf", String.intercalate "," (video_filters target_resolution)])
  ++ codec_args target_format
  ++ ["-c:a", "aac", "-b:a", "128k"]
  ++ (match target_bitrate with
      | none => []
      | some b => if b = "" then [] else ["-b:v", b])
  ++ [output_path]

/-! ## Helper lemmas -/

theorem getJob_updateJob (jobs : List JobRecord) (jid : String)
    (f : JobRecord → JobRecord) (hf : ∀ j, (f j).id = j.id) :
    getJob (updateJob jobs jid f) jid = (getJob jobs jid).map f := by
  induction jobs with
  | nil => rfl
  | cons a tl ih =>
    by_cases h : a.id = jid
    · simp [getJob, updateJob, List.find?_cons_of_pos, h, hf a]
    · simp only [getJob, updateJob, List.map_cons] at ih ⊢
      rw [if_neg h, List.find?_cons_of_neg, List.find?_cons_of_neg]
      · exact ih
      · simp [h]
      · simp [h]

theorem getJob_sqlUpdateProcessing (jobs : List JobRecord) (jid : String) (t : Nat) :
    getJob (sqlUpdateProcessing jobs jid t) jid
    = (getJob jobs jid).map
        (fun j => { j with status := .processing, started_at := some t }) :=
  getJob_updateJob jobs jid _ (fun _ => rfl)

theorem getJob_sqlUpdateCompleted (jobs : List JobRecord) (jid : String) (t dur : Nat) :
    getJob (sqlUpdateCompleted jobs jid t dur) jid
    = (getJob jobs jid).map
        (fun j => { j with status := .completed, progress := 100,
                           completed_at := some t, processing_time := some dur }) :=
  getJob_updateJob jobs jid _ (fun _ => rfl)

theorem getJob_sqlUpdateFailed (jobs : List JobRecord) (jid : String) (msg : String) :
    getJob (sqlUpdateFailed jobs jid msg) jid
    = (getJob jobs jid).map
        (fun j => { j with status := .failed, error_message := some msg }) :=
  getJob_updateJob jobs jid _ (fun _ => rfl)

theorem getJob_append_of_none (jobs1 jobs2 : List JobRecord) (jid : String)
    (h : getJob jobs1 jid = none) :
    getJob (jobs1 ++ jobs2) jid = getJob jobs2 jid := by
  unfold getJob at h ⊢
  simp [List.find?_append, h]

theorem batch_loop_jobs_mem (videos : List Video) (uid : Nat) (role : String)
    (fmt res bitrate : String) (now : Nat) (gen : Nat → String) :
    ∀ (vids : List String) (i : Nat) (j : JobRecord),
      j ∈ (batch_loop videos uid role fmt res bitrate now gen i vids).2 →
      j.target_format = fmt ∧ j.target_resolution = res ∧ j.status = JobStatus.queued := by
  intro vids
  induction vids with
  | nil => intro i j hj; simp [batch_loop] at hj
  | cons v rest ih =>
    intro i j hj
    unfold batch_loop at hj
    cases hv : lookupVideo videos role uid v with
    | some w =>
      rw [hv] at hj
      simp only [List.mem_cons] at hj
      rcases hj with h | h
      · subst h; exact ⟨rfl, rfl, rfl⟩
      · exact ih (i + 1) j h
    | none =>
      rw [hv] at hj
      exact ih (i + 1) j hj

theorem batch_loop_lengths (videos : List Video) (uid : Nat) (role : String)
    (fmt res bitrate : String) (now : Nat) (gen : Nat → String) :
    ∀ (vids : List String) (i : Nat),
      (batch_loop videos uid role fmt res bitrate now gen i vids).1.length
        = (vids.filter (fun v => (lookupVideo videos role uid v).isSome)).length ∧
      (batch_loop videos uid role fmt res bitrate now gen i vids).2.length
        = (batch_loop videos uid role fmt res bitrate now gen i vids).1.length := by
  intro vids
  induction vids with
  | nil => intro i; simp [batch_loop]
  | cons v rest ih =>
    intro i
    unfold batch_loop
    cases hv : lookupVideo videos role uid v with
    | some w =>
      simp only [List.filter_cons, hv, Option.isSome_some, if_pos, List.length_cons]
      exact ⟨by rw [(ih (i + 1)).1], by rw [(ih (i + 1)).2]⟩
    | none =>
      simp only [List.filter_cons, hv, Option.isSome_none]
      exact ih (i + 1)

/-! ## Claims -/

/-- C3 counterexample: the store's status-update path performs no
enforcement.  Applying the processing update (the literal SQL statement at
src/app.py lines 221-224) to a table holding a `completed` job moves that
job backward to `processing` instead of rejecting the update. -/
theorem c3_store_applies_backward_update :
    getJob (sqlUpdateProcessing
      [{ mkJob "j0" 1 "v1" "h264" "720p" "2M" 0 with
         status := JobStatus.completed, progress := 100,
         completed_at := some 9, processing_time := some 9 }] "j0" 5) "j0"
    = some { mkJob "j0" 1 "v1" "h264" "720p" "2M" 0 with
             status := JobStatus.processing, started_at := some 5, progress := 100,
             completed_at := some 9, processing_time := some 9 } := by
  decide

/-- C3 (amended): there is no store-side enforcement of the status order —
each SQL update assigns its target status unconditionally — but the only
sequence the execution path of `transcode_video_cpu_intensive` performs on a
queued job is queued → processing → a terminal state (`completed` or
`failed`). -/
theorem c3_executed_path_monotonic
    (jobs : List JobRecord) (jid : String) (startT dur : Nat) (outcome : RunOutcome)
    (j : JobRecord) (hj : getJob jobs jid = some j) (_hq : j.status = JobStatus.queued) :
    (∃ j1, getJob (sqlUpdateProcessing jobs jid startT) jid = some j1 ∧
       j1.status = JobStatus.processing) ∧
    (∃ j2, getJob (transcode_video_cpu_intensive jobs jid startT dur outcome) jid = some j2 ∧
       (j2.status = JobStatus.completed ∨ j2.status = JobStatus.failed)) := by
  constructor
  · refine ⟨{ j with status := JobStatus.processing, started_at := some startT }, ?_, rfl⟩
    rw [getJob_sqlUpdateProcessing, hj]
    rfl
  · rcases outcome with ⟨code, stderr⟩ | msg
    · by_cases hc : code = 0
      · refine ⟨{ j with
            status := JobStatus.completed
            progress := 100
            started_at := some startT
            completed_at := some (startT + dur)
            processing_time := some dur }, ?_, Or.inl rfl⟩
        show getJob (if code = 0 then _ else _) jid = _
        rw [if_pos hc, getJob_sqlUpdateCompleted, getJob_sqlUpdateProcessing, hj]
        rfl
      · refine ⟨{ j with
            status := JobStatus.failed
            started_at := some startT
            error_message := some stderr }, ?_, Or.inr rfl⟩
        show getJob (if code = 0 then _ else _) jid = _
        rw [if_neg hc, getJob_sqlUpdateFailed, getJob_sqlUpdateProcessing, hj]
        rfl
    · refine ⟨{ j with
          status := JobStatus.failed
          started_at := some startT
          error_message := some msg }, ?_, Or.inr rfl⟩
      show getJob (sqlUpdateFailed (sqlUpdateProcessing jobs jid startT) jid msg) jid = _
      rw [getJob_sqlUpdateFailed, getJob_sqlUpdateProcessing, hj]
      rfl

theorem c3_executed_path_monotonic_witness :
    getJob [mkJob "j0" 1 "v1" "h264" "720p" "2M" 0] "j0"
      = some (mkJob "j0" 1 "v1" "h264" "720p" "2M" 0) ∧
    (mkJob "j0" 1 "v1" "h264" "720p" "2M" 0).status = JobStatus.queued ∧
    ((∃ j1, getJob (sqlUpdateProcessing [mkJob "j0" 1 "v1" "h264" "720p" "2M" 0] "j0" 3) "j0"
        = some j1 ∧ j1.status = JobStatus.processing) ∧
     (∃ j2, getJob (transcode_video_cpu_intensive
         [mkJob "j0" 1 "v1" "h264" "720p" "2M" 0] "j0" 3 7 (.exits 0 "")) "j0" = some j2 ∧
       (j2.status = JobStatus.completed ∨ j2.status = JobStatus.failed))) :=
  ⟨by decide, by decide,
   c3_executed_path_monotonic [mkJob "j0" 1 "v1" "h264" "720p" "2M" 0] "j0" 3 7
     (.exits 0 "") (mkJob "j0" 1 "v1" "h264" "720p" "2M" 0) (by decide) (by decide)⟩

/-- C4 counterexample: a run whose engine invocation exits with code 1 and
diagnostic "unsupported codec" leaves the job `failed` with the diagnostic
recorded, but `completed_at` and `processing_time` remain NULL — the claim
says both are stamped at failure just as at success. -/
theorem c4_failure_leaves_completed_at_null :
    getJob (transcode_video_cpu_intensive
        [mkJob "j0" 1 "v1" "h264" "720p" "2M" 0] "j0" 3 7
        (.exits 1 "unsupported codec")) "j0"
    = some { mkJob "j0" 1 "v1" "h264" "720p" "2M" 0 with
             status := JobStatus.failed, started_at := some 3,
             error_message := some "unsupported codec" } ∧
    ({ mkJob "j0" 1 "v1" "h264" "720p" "2M" 0 with
       status := JobStatus.failed, started_at := some 3,
       error_message := some "unsupported codec" } : JobRecord).completed_at = none ∧
    ({ mkJob "j0" 1 "v1" "h264" "720p" "2M" 0 with
       status := JobStatus.failed, started_at := some 3,
       error_message := some "unsupported codec" } : JobRecord).processing_time = none := by
  refine ⟨by decide, rfl, rfl⟩

/-- C4 (amended): when the engine invocation exits with a non-zero code the
job record is updated to `failed` with `error_message` taken from the
engine's stderr (`started_at` having been stamped by the earlier processing
update), but `completed_at` is NOT stamped and `processing_time` is NOT
computed: the failure-branch UPDATE (src/app.py lines 307-310) touches only
`status` and `error_message`, so both timestamp fields keep their prior
values. -/
theorem c4_failure_updates_only_status_and_error
    (jobs : List JobRecord) (jid : String) (startT dur code : Nat) (stderr : String)
    (j : JobRecord) (hc : code ≠ 0) (hj : getJob jobs jid = some j) :
    getJob (transcode_video_cpu_intensive jobs jid startT dur (.exits code stderr)) jid
    = some { j with status := JobStatus.failed, started_at := some startT,
                    error_message := some stderr } := by
  show getJob (if code = 0 then _ else _) jid = _
  rw [if_neg hc, getJob_sqlUpdateFailed, getJob_sqlUpdateProcessing, hj]
  rfl

theorem c4_failure_updates_only_status_and_error_witness :
    (1 : Nat) ≠ 0 ∧
    getJob (transcode_video_cpu_intensive
        [mkJob "j0" 1 "v1" "h264" "720p" "2M" 0] "j0" 3 7 (.exits 1 "boom")) "j0"
    = some { mkJob "j0" 1 "v1" "h264" "720p" "2M" 0 with
             status := JobStatus.failed, started_at := some 3,
             error_message := some "boom" } :=
  ⟨by decide,
   c4_failure_updates_only_status_and_error [mkJob "j0" 1 "v1" "h264" "720p" "2M" 0]
     "j0" 3 7 1 "boom" (mkJob "j0" 1 "v1" "h264" "720p" "2M" 0)
     (by decide) (by decide)⟩

/-- C5: an exception raised while a job executes (after the record moved to
`processing`) is caught by the handler at src/app.py lines 316-325, which
forces the record to `failed` with the exception text as `error_message`;
in particular the job does not remain in `processing`. -/
theorem c5_exception_forces_failed
    (jobs : List JobRecord) (jid : String) (startT dur : Nat) (msg : String)
    (j : JobRecord) (hj : getJob jobs jid = some j) :
    getJob (transcode_video_cpu_intensive jobs jid startT dur (.raises msg)) jid
    = some { j with status := JobStatus.failed, started_at := some startT,
                    error_message := some msg } ∧
    ({ j with status := JobStatus.failed, started_at := some startT,
              error_message := some msg } : JobRecord).status ≠ JobStatus.processing := by
  constructor
  · show getJob (sqlUpdateFailed (sqlUpdateProcessing jobs jid startT) jid msg) jid = _
    rw [getJob_sqlUpdateFailed, getJob_sqlUpdateProcessing, hj]
    rfl
  · intro h
    exact JobStatus.noConfusion h

theorem c5_exception_forces_failed_witness :
    getJob (transcode_video_cpu_intensive
        [mkJob "j0" 1 "v1" "h264" "720p" "2M" 0] "j0" 3 7 (.raises "store unavailable")) "j0"
    = some { mkJob "j0" 1 "v1" "h264" "720p" "2M" 0 with
             status := JobStatus.failed, started_at := some 3,
             error_message := some "store unavailable" } :=
  (c5_exception_forces_failed [mkJob "j0" 1 "v1" "h264" "720p" "2M" 0] "j0" 3 7
     "store unavailable" (mkJob "j0" 1 "v1" "h264" "720p" "2M" 0) (by decide)).1

/-- C1 counterexample: the batch submission path creates a job for target
format "xvid", which is outside the h264|h265|vp9 enumeration, instead of
rejecting it: `batch_transcode` never consults `valid_formats` or
`valid_resolutions` (src/app.py lines 941-993). -/
theorem c1_batch_accepts_invalid_format :
    batch_transcode [⟨"v1", 1, "f.mp4"⟩] [] 1 "user"
        ⟨["v1"], some "xvid", some "720p", some "2M"⟩ (fun i => "job" ++ toString i) 0
      = (BatchResult.accepted ["job0"], [mkJob "job0" 1 "v1" "xvid" "720p" "2M" 0]) := by
  decide

theorem batch_transcode_mem (videos : List Video) (jobs : List JobRecord)
    (uid : Nat) (role : String) (bdata : BatchRequestData) (gen : Nat → String)
    (now : Nat) (j : JobRecord)
    (hj : j ∈ (batch_transcode videos jobs uid role bdata gen now).2) :
    j ∈ jobs ∨ j ∈ (batch_loop videos uid role (bdata.target_format.getD "h264")
        (bdata.target_resolution.getD "720p") (bdata.target_bitrate.getD "2M")
        now gen 0 bdata.video_ids).2 := by
  unfold batch_transcode at hj
  cases hvids : bdata.video_ids with
  | nil =>
      rw [hvids] at hj
      exact Or.inl hj
  | cons v rest =>
      rw [hvids] at hj
      exact List.mem_append.mp hj

/-- C1 (amended): only the single-video submission path validates the target:
a format or resolution outside the fixed enumerations is rejected there with
a validation error and no job record is created; the batch path performs no
such validation — every job record it creates simply carries the requested
format and resolution, whatever they are, in state `queued`. -/
theorem c1_validation_single_path_only
    (videos : List Video) (jobs : List JobRecord) (uid : Nat) (role : String)
    (vid : String) (data : RequestData) (jid : String) (now : Nat)
    (bdata : BatchRequestData) (gen : Nat → String)
    (hbad : data.target_format.getD "h264" ∉ valid_formats ∨
            data.target_resolution.getD "720p" ∉ valid_resolutions) :
    ((∃ m, (transcode_video videos jobs uid role vid data jid now).1
        = SubmitResult.validationError m) ∧
     (transcode_video videos jobs uid role vid data jid now).2 = jobs) ∧
    (∀ j ∈ (batch_transcode videos jobs uid role bdata gen now).2,
       j ∈ jobs ∨ (j.target_format = bdata.target_format.getD "h264" ∧
                   j.target_resolution = bdata.target_resolution.getD "720p" ∧
                   j.status = JobStatus.queued)) := by
  constructor
  · unfold transcode_video
    by_cases hf : data.target_format.getD "h264" ∈ valid_formats
    · rcases hbad with h | h
      · exact absurd hf h
      · rw [if_pos hf, if_neg h]
        exact ⟨⟨_, rfl⟩, rfl⟩
    · rw [if_neg hf]
      exact ⟨⟨_, rfl⟩, rfl⟩
  · intro j hj
    rcases batch_transcode_mem videos jobs uid role bdata gen now j hj with h | h
    · exact Or.inl h
    · exact Or.inr (batch_loop_jobs_mem videos uid role _ _ _ now gen
        bdata.video_ids 0 j h)

theorem c1_validation_single_path_only_witness :
    ((⟨some "xvid", some "720p", some "2M"⟩ : RequestData).target_format.getD "h264"
        ∉ valid_formats ∨
     (⟨some "xvid", some "720p", some "2M"⟩ : RequestData).target_resolution.getD "720p"
        ∉ valid_resolutions) ∧
    (((∃ m, (transcode_video [⟨"v1", 1, "f.mp4"⟩] [] 1 "user" "v1"
          ⟨some "xvid", some "720p", some "2M"⟩ "j0" 0).1
        = SubmitResult.validationError m) ∧
      (transcode_video [⟨"v1", 1, "f.mp4"⟩] [] 1 "user" "v1"
          ⟨some "xvid", some "720p", some "2M"⟩ "j0" 0).2 = []) ∧
     (∀ j ∈ (batch_transcode [⟨"v1", 1, "f.mp4"⟩] [] 1 "user"
          ⟨["v1"], some "xvid", some "720p", some "2M"⟩ (fun i => "job" ++ toString i) 0).2,
        j ∈ ([] : List JobRecord) ∨
          (j.target_format = (⟨["v1"], some "xvid", some "720p", some "2M"⟩
              : BatchRequestData).target_format.getD "h264" ∧
           j.target_resolution = (⟨["v1"], some "xvid", some "720p", some "2M"⟩
              : BatchRequestData).target_resolution.getD "720p" ∧
           j.status = JobStatus.queued))) :=
  ⟨Or.inl (by decide),
   c1_validation_single_path_only [⟨"v1", 1, "f.mp4"⟩] [] 1 "user" "v1"
     ⟨some "xvid", some "720p", some "2M"⟩ "j0" 0
     ⟨["v1"], some "xvid", some "720p", some "2M"⟩ (fun i => "job" ++ toString i)
     (Or.inl (by decide))⟩

/-- C2 counterexample: a job created by the single-video submission path is
in status `queued` with `result_filename` already non-empty — the INSERT at
src/app.py lines 586-591 sets `result_filename` at creation time — so
"resultRef is non-empty if and only if status = completed" fails. -/
theorem c2_result_filename_set_while_queued :
    getJob (transcode_video [⟨"v1", 1, "f.mp4"⟩] [] 1 "user" "v1"
        ⟨some "h264", some "720p", some "2M"⟩ "j0" 0).2 "j0"
      = some (mkJob "j0" 1 "v1" "h264" "720p" "2M" 0) ∧
    (mkJob "j0" 1 "v1" "h264" "720p" "2M" 0).status = JobStatus.queued ∧
    (mkJob "j0" 1 "v1" "h264" "720p" "2M" 0).result_filename = some "j0_h264_720p.mp4" := by
  decide

theorem getJob_singleton_mk (jid : String) (uid : Nat) (vid : String)
    (fmt res bitr : String) (now : Nat) :
    getJob [mkJob jid uid vid fmt res bitr now] jid
      = some (mkJob jid uid vid fmt res bitr now) := by
  simp [getJob, mkJob]

/-- C2 (amended): `result_filename` is assigned at job creation and is
non-empty in every state — it is not an indicator of completion — while
`error_message` is set exactly when the job has reached `failed`; in
particular a failed job carries both fields at once.  Formally: the record
created by the submission path is `queued` with `result_filename` set and
`error_message` NULL, and after the execution path runs, `result_filename`
is still set and `error_message` is set iff the final status is `failed`. -/
theorem c2_error_iff_failed_result_always_set
    (videos : List Video) (jobs : List JobRecord) (uid : Nat) (role : String)
    (vid : String) (data : RequestData) (jid : String) (now startT dur : Nat)
    (outcome : RunOutcome) (v : Video)
    (hfmt : data.target_format.getD "h264" ∈ valid_formats)
    (hres : data.target_resolution.getD "720p" ∈ valid_resolutions)
    (hv : lookupVideo videos role uid vid = some v)
    (hfresh : getJob jobs jid = none) :
    ∃ j1 j2,
      getJob (transcode_video videos jobs uid role vid data jid now).2 jid = some j1 ∧
      j1.status = JobStatus.queued ∧ j1.result_filename.isSome = true ∧
      j1.error_message = none ∧
      getJob (transcode_video_cpu_intensive
        (transcode_video videos jobs uid role vid data jid now).2
        jid startT dur outcome) jid = some j2 ∧
      j2.result_filename.isSome = true ∧
      (j2.error_message.isSome = true ↔ j2.status = JobStatus.failed) := by
  have h2 : (transcode_video videos jobs uid role vid data jid now).2
      = jobs ++ [mkJob jid uid vid (data.target_format.getD "h264")
          (data.target_resolution.getD "720p") (data.target_bitrate.getD "2M") now] := by
    unfold transcode_video
    rw [if_pos hfmt, if_pos hres, hv]
  have hget1 : getJob (transcode_video videos jobs uid role vid data jid now).2 jid
      = some (mkJob jid uid vid (data.target_format.getD "h264")
          (data.target_resolution.getD "720p") (data.target_bitrate.getD "2M") now) := by
    rw [h2, getJob_append_of_none _ _ _ hfresh, getJob_singleton_mk]
  rcases outcome with ⟨code, stderr⟩ | msg
  · by_cases hc : code = 0
    · refine ⟨mkJob jid uid vid (data.target_format.getD "h264")
          (data.target_resolution.getD "720p") (data.target_bitrate.getD "2M") now,
        { mkJob jid uid vid (data.target_format.getD "h264")
            (data.target_resolution.getD "720p") (data.target_bitrate.getD "2M") now with
          status := JobStatus.completed
          progress := 100
          started_at := some startT
          completed_at := some (startT + dur)
          processing_time := some dur },
        hget1, rfl, rfl, rfl, ?_, rfl, by simp [mkJob]⟩
      show getJob (if code = 0 then _ else _) jid = _
      rw [if_pos hc, getJob_sqlUpdateCompleted, getJob_sqlUpdateProcessing, hget1]
      rfl
    · refine ⟨mkJob jid uid vid (data.target_format.getD "h264")
          (data.target_resolution.getD "720p") (data.target_bitrate.getD "2M") now,
        { mkJob jid uid vid (data.target_format.getD "h264")
            (data.target_resolution.getD "720p") (data.target_bitrate.getD "2M") now with
          status := JobStatus.failed
          started_at := some startT
          error_message := some stderr },
        hget1, rfl, rfl, rfl, ?_, rfl, by simp⟩
      show getJob (if code = 0 then _ else _) jid = _
      rw [if_neg hc, getJob_sqlUpdateFailed, getJob_sqlUpdateProcessing, hget1]
      rfl
  · refine ⟨mkJob jid uid vid (data.target_format.getD "h264")
        (data.target_resolution.getD "720p") (data.target_bitrate.getD "2M") now,
      { mkJob jid uid vid (data.target_format.getD "h264")
          (data.target_resolution.getD "720p") (data.target_bitrate.getD "2M") now with
        status := JobStatus.failed
        started_at := some startT
        error_message := some msg },
      hget1, rfl, rfl, rfl, ?_, rfl, by simp⟩
    show getJob (sqlUpdateFailed (sqlUpdateProcessing _ jid startT) jid msg) jid = _
    rw [getJob_sqlUpdateFailed, getJob_sqlUpdateProcessing, hget1]
    rfl

theorem c2_error_iff_failed_result_always_set_witness :
    (⟨some "h264", some "720p", some "2M"⟩ : RequestData).target_format.getD "h264"
      ∈ valid_formats ∧
    ∃ j1 j2,
      getJob (transcode_video [⟨"v1", 1, "f.mp4"⟩] [] 1 "user" "v1"
          ⟨some "h264", some "720p", some "2M"⟩ "j0" 0).2 "j0" = some j1 ∧
      j1.status = JobStatus.queued ∧ j1.result_filename.isSome = true ∧
      j1.error_message = none ∧
      getJob (transcode_video_cpu_intensive
        (transcode_video [⟨"v1", 1, "f.mp4"⟩] [] 1 "user" "v1"
          ⟨some "h264", some "720p", some "2M"⟩ "j0" 0).2
        "j0" 3 7 (.exits 1 "boom")) "j0" = some j2 ∧
      j2.result_filename.isSome = true ∧
      (j2.error_message.isSome = true ↔ j2.status = JobStatus.failed) :=
  ⟨by decide,
   c2_error_iff_failed_result_always_set [⟨"v1", 1, "f.mp4"⟩] [] 1 "user" "v1"
     ⟨some "h264", some "720p", some "2M"⟩ "j0" 0 3 7 (.exits 1 "boom")
     ⟨"v1", 1, "f.mp4"⟩ (by decide) (by decide) (by decide) (by decide)⟩

/-- C6: for target format h264 and resolution 720p the engine invocation
built at src/app.py lines 230-287 carries the video-filter chain
scale-to-1280x720 with lanczos resampling followed by the fixed sharpen,
color-enhancement and denoise filters, and the libx264 codec profile;
the filter list is a function of the resolution alone and the codec block
of the format alone, so the parameters are a fixed lookup with no dynamic
tuning (only the input path, output path and bitrate vary). -/
theorem c6_h264_720p_command (input output : String) (bitrate : Option String) :
    video_filters (some "720p")
      = ["scale=1280:720:flags=lanczos", "unsharp=5:5:1.0:5:5:0.0",
         "eq=contrast=1.1:brightness=0.02:saturation=1.1", "hqdn3d=4:3:6:4.5"] ∧
    build_cmd input output "h264" (some "720p") bitrate
      = ["ffmpeg", "-i", input, "-y", "-vf",
         "scale=1280:720:flags=lanczos,unsharp=5:5:1.0:5:5:0.0,eq=contrast=1.1:brightness=0.02:saturation=1.1,hqdn3d=4:3:6:4.5",
         "-c:v", "libx264", "-preset", "veryslow", "-crf", "18",
         "-x264-params", "me=umh:subme=10:ref=16:b-adapt=2:direct=auto:weightp=2",
         "-c:a", "aac", "-b:a", "128k"]
        ++ (match bitrate with
            | none => []
            | some b => if b = "" then [] else ["-b:v", b])
        ++ [output] := by
  have hvf : video_filters (some "720p")
      = ["scale=1280:720:flags=lanczos", "unsharp=5:5:1.0:5:5:0.0",
         "eq=contrast=1.1:brightness=0.02:saturation=1.1", "hqdn3d=4:3:6:4.5"] := by
    decide
  have hne : ¬ video_filters (some "720p") = [] := by decide
  have hjoin : String.intercalate "," (video_filters (some "720p"))
      = "scale=1280:720:flags=lanczos,unsharp=5:5:1.0:5:5:0.0,eq=contrast=1.1:brightness=0.02:saturation=1.1,hqdn3d=4:3:6:4.5" := by
    decide
  have hcodec : codec_args "h264"
      = ["-c:v", "libx264", "-preset", "veryslow", "-crf", "18",
         "-x264-params", "me=umh:subme=10:ref=16:b-adapt=2:direct=auto:weightp=2"] := by
    decide
  refine ⟨hvf, ?_⟩
  unfold build_cmd
  rw [if_neg hne, hjoin, hcodec]
  cases bitrate with
  | none => simp
  | some b => simp

/-- C7 counterexample: `batch_transcode` does not invoke the single
submission path per reference — on the same input the single path rejects
format "xvid" with a validation error and creates nothing, while the batch
path accepts it and creates a job record. -/
theorem c7_batch_not_single_path :
    transcode_video [⟨"v1", 1, "f.mp4"⟩] [] 1 "user" "v1"
        ⟨some "xvid", some "720p", some "2M"⟩ "j0" 0
      = (SubmitResult.validationError "Invalid target format", []) ∧
    batch_transcode [⟨"v1", 1, "f.mp4"⟩] [] 1 "user"
        ⟨["v1"], some "xvid", some "720p", some "2M"⟩ (fun _ => "j0") 0
      = (BatchResult.accepted ["j0"], [mkJob "j0" 1 "v1" "xvid" "720p" "2M" 0]) := by
  decide

/-- C7 (amended): the batch path repeats, per source reference, the
ownership/existence check and job-record creation of the single path (but
not its format/resolution validation); a reference failing the check is
skipped without failing the batch and excluded from the returned id list,
so the number of returned job ids equals the number of references passing
the check, with exactly that many new records, all in state `queued`. -/
theorem c7_batch_skips_failed_ownership
    (videos : List Video) (jobs : List JobRecord) (uid : Nat) (role : String)
    (bdata : BatchRequestData) (gen : Nat → String) (now : Nat)
    (hne : bdata.video_ids ≠ []) :
    ∃ ids newJobs,
      batch_transcode videos jobs uid role bdata gen now
        = (BatchResult.accepted ids, jobs ++ newJobs) ∧
      ids.length = (bdata.video_ids.filter
        (fun v => (lookupVideo videos role uid v).isSome)).length ∧
      newJobs.length = ids.length ∧
      (∀ j ∈ newJobs, j.status = JobStatus.queued) := by
  cases hvids : bdata.video_ids with
  | nil => exact absurd hvids hne
  | cons v rest =>
      refine ⟨(batch_loop videos uid role (bdata.target_format.getD "h264")
            (bdata.target_resolution.getD "720p") (bdata.target_bitrate.getD "2M")
            now gen 0 (v :: rest)).1,
          (batch_loop videos uid role (bdata.target_format.getD "h264")
            (bdata.target_resolution.getD "720p") (bdata.target_bitrate.getD "2M")
            now gen 0 (v :: rest)).2, ?_, ?_, ?_, ?_⟩
      · unfold batch_transcode
        rw [hvids]
      · exact (batch_loop_lengths videos uid role _ _ _ now gen (v :: rest) 0).1
      · exact (batch_loop_lengths videos uid role _ _ _ now gen (v :: rest) 0).2
      · intro j hj
        exact (batch_loop_jobs_mem videos uid role _ _ _ now gen (v :: rest) 0 j hj).2.2

theorem c7_batch_skips_failed_ownership_witness :
    (⟨["a", "b", "c"], some "h264", some "720p", some "2M"⟩
        : BatchRequestData).video_ids ≠ [] ∧
    ((⟨["a", "b", "c"], some "h264", some "720p", some "2M"⟩
        : BatchRequestData).video_ids.filter
      (fun v => (lookupVideo [⟨"a", 1, "fa"⟩, ⟨"b", 2, "fb"⟩, ⟨"c", 1, "fc"⟩]
        "user" 1 v).isSome)).length = 2 ∧
    ∃ ids newJobs,
      batch_transcode [⟨"a", 1, "fa"⟩, ⟨"b", 2, "fb"⟩, ⟨"c", 1, "fc"⟩] [] 1 "user"
          ⟨["a", "b", "c"], some "h264", some "720p", some "2M"⟩
          (fun i => "j" ++ toString i) 0
        = (BatchResult.accepted ids, [] ++ newJobs) ∧
      ids.length = ((⟨["a", "b", "c"], some "h264", some "720p", some "2M"⟩
          : BatchRequestData).video_ids.filter
        (fun v => (lookupVideo [⟨"a", 1, "fa"⟩, ⟨"b", 2, "fb"⟩, ⟨"c", 1, "fc"⟩]
          "user" 1 v).isSome)).length ∧
      newJobs.length = ids.length ∧
      (∀ j ∈ newJobs, j.status = JobStatus.queued) :=
  ⟨by decide, by decide,
   c7_batch_skips_failed_ownership [⟨"a", 1, "fa"⟩, ⟨"b", 2, "fb"⟩, ⟨"c", 1, "fc"⟩]
     [] 1 "user" ⟨["a", "b", "c"], some "h264", some "720p", some "2M"⟩
     (fun i => "j" ++ toString i) 0 (by decide)⟩

/-- C9: a single-video submission whose body omits all three target fields
is not rejected: the defaults h264 / 720p / 2M are applied (src/app.py
lines 555-557), they pass validation, and a `queued` job carrying exactly
those values is created. -/
theorem c9_defaults_applied
    (videos : List Video) (jobs : List JobRecord) (uid : Nat) (role : String)
    (vid jid : String) (now : Nat) (v : Video)
    (hv : lookupVideo videos role uid vid = some v) :
    transcode_video videos jobs uid role vid ⟨none, none, none⟩ jid now
      = (SubmitResult.accepted jid, jobs ++ [mkJob jid uid vid "h264" "720p" "2M" now]) := by
  unfold transcode_video
  rw [if_pos (by decide), if_pos (by decide), hv]
  rfl

theorem c9_defaults_applied_witness :
    transcode_video [⟨"v1", 1, "f.mp4"⟩] [] 1 "user" "v1" ⟨none, none, none⟩ "j0" 0
      = (SubmitResult.accepted "j0", [] ++ [mkJob "j0" 1 "v1" "h264" "720p" "2M" 0]) :=
  c9_defaults_applied [⟨"v1", 1, "f.mp4"⟩] [] 1 "user" "v1" "j0" 0
    ⟨"v1", 1, "f.mp4"⟩ (by decide)

/-- C10: the result-download handler (src/app.py lines 651-678) is
read-only (the jobs table is unchanged by the request), returns the file
only when the selected row has the requested id, status literally
`completed`, and is owned by the requester unless they are admin; and when
no row of the table satisfies that condition the response is the 404
"Transcoded video not found". -/
theorem c10_download_only_completed
    (jobs : List JobRecord) (fe : String → Bool) (uid : Nat) (role : String)
    (jid : String) :
    (download_transcoded_video jobs fe uid role jid).2 = jobs ∧
    (∀ p, (download_transcoded_video jobs fe uid role jid).1 = DownloadResult.file p →
       ∃ j, j ∈ jobs ∧ j.id = jid ∧ j.status = JobStatus.completed ∧
         (role = "admin" ∨ j.user_id = uid)) ∧
    ((∀ j ∈ jobs, ¬(j.id = jid ∧ j.status = JobStatus.completed ∧
        (role = "admin" ∨ j.user_id = uid))) →
      (download_transcoded_video jobs fe uid role jid).1
        = DownloadResult.notFound "Transcoded video not found") := by
  refine ⟨?_, ?_, ?_⟩
  · unfold download_transcoded_video
    split
    · rfl
    · split
      · rfl
      · split
        · rfl
        · split
          · rfl
          · rfl
  · intro p hp
    unfold download_transcoded_video at hp
    cases hrow : jobs.find? (fun j =>
        decide (j.id = jid) && decide (j.status = JobStatus.completed) &&
          (decide (role = "admin") || decide (j.user_id = uid))) with
    | none =>
        rw [hrow] at hp
        simp at hp
    | some j =>
        have hpred := List.find?_some hrow
        have hmem := List.mem_of_find?_eq_some hrow
        simp only [Bool.and_eq_true, Bool.or_eq_true, decide_eq_true_eq] at hpred
        exact ⟨j, hmem, hpred.1.1, hpred.1.2, hpred.2⟩
  · intro hall
    have hnone : jobs.find? (fun j =>
        decide (j.id = jid) && decide (j.status = JobStatus.completed) &&
          (decide (role = "admin") || decide (j.user_id = uid))) = none := by
      rw [List.find?_eq_none]
      intro x hx
      simp only [Bool.and_eq_true, Bool.or_eq_true, decide_eq_true_eq]
      exact fun hc => hall x hx ⟨hc.1.1, hc.1.2, hc.2⟩
    unfold download_transcoded_video
    rw [hnone]

theorem c10_download_only_completed_witness :
    (download_transcoded_video [mkJob "j0" 1 "v1" "h264" "720p" "2M" 0]
        (fun _ => true) 1 "user" "j0").2
      = [mkJob "j0" 1 "v1" "h264" "720p" "2M" 0] ∧
    (download_transcoded_video [mkJob "j0" 1 "v1" "h264" "720p" "2M" 0]
        (fun _ => true) 1 "user" "j0").1
      = DownloadResult.notFound "Transcoded video not found" :=
  ⟨(c10_download_only_completed [mkJob "j0" 1 "v1" "h264" "720p" "2M" 0]
      (fun _ => true) 1 "user" "j0").1,
   (c10_download_only_completed [mkJob "j0" 1 "v1" "h264" "720p" "2M" 0]
      (fun _ => true) 1 "user" "j0").2.2 (by decide)⟩
